import Mathlib

/-!
Verification of the retsnoop event post-processing pipeline (src/src/retsnoop.c).

The pipeline is embedded shallowly: per-event binary records become Lean
structures whose parallel arrays are modelled as functions `Nat → _`;
machine integers are modelled as `Nat`/`Int` with explicit `% 2^w` wraps
where C overflow or reinterpretation matters; the static C arrays written
in place are modelled by threading the previous array contents explicitly.
-/

/-! **Machine-integer helpers.**
`sign_ext_32` is C's `(long)(int)v` on a captured `__u64` value: keep the
low 32 bits and sign-extend.  `to_int64` is C's `(long)v`: the 64-bit
pattern read as a signed 64-bit value.  `wrap_i64` wraps an out-of-range
integer back into `[-2^63, 2^63)` (two's complement), and `to_u64` is the
unsigned reinterpretation used when a C `long` meets a `size_t`. -/

def sign_ext_32 (v : Nat) : Int :=
  let lo : Nat := v % 2 ^ 32
  if lo < 2 ^ 31 then (lo : Int) else (lo : Int) - 2 ^ 32

def to_int64 (v : Nat) : Int :=
  let lo : Nat := v % 2 ^ 64
  if lo < 2 ^ 63 then (lo : Int) else (lo : Int) - 2 ^ 64

def wrap_i64 (x : Int) : Int :=
  (x + 2 ^ 63) % 2 ^ 64 - 2 ^ 63

def to_u64 (x : Int) : Nat :=
  (x % 2 ^ 64).toNat

/-- C: `x - y` on 64-bit quantities, compared as an unsigned bit pattern. -/
def sub_wrap64 (x y : Nat) : Nat :=
  (x + (2 ^ 64 - y % 2 ^ 64)) % 2 ^ 64

/-! **Per-function flags.**
Modelled from the spec: the flag constants live in `retsnoop.h`, which is
not under src/; only their distinctness and bit-disjointness matter to the
code under verification (`filter_fstack` tests `flags & FUNC_NEEDS_SIGN_EXT`,
`func_flags` returns one of them). -/

/-- Modelled from the spec: entry-point marker bit from `retsnoop.h` (file
missing from src/). -/
def FUNC_IS_ENTRY : Nat := 1

/-- Modelled from the spec: "cannot fail" classification bit from
`retsnoop.h` (file missing from src/). -/
def FUNC_CANT_FAIL : Nat := 2

/-- Modelled from the spec: "needs sign-extension" classification bit from
`retsnoop.h` (file missing from src/). -/
def FUNC_NEEDS_SIGN_EXT : Nat := 4

/-- Modelled from the spec: "can fail, no sign extension, pointer return"
classification bit from `retsnoop.h` (file missing from src/). -/
def FUNC_RET_PTR : Nat := 8

/-- Modelled from the spec: fixed logical-stack capacity
(`MAX_FSTACK_DEPTH` in `retsnoop.h`, missing from src/); the spec calls it
"a configured constant".  Its exact value is immaterial to the claims:
only that it is a fixed finite capacity of the static `fstack` array. -/
def MAX_FSTACK_DEPTH : Nat := 64

/-- Modelled from the spec: fixed kernel-stack capacity
(`MAX_KSTACK_DEPTH` in `retsnoop.h`, missing from src/). -/
def MAX_KSTACK_DEPTH : Nat := 128

/-! **The per-event record** (`struct call_stack`, shared with the BPF side;
field layout per the spec's data model §3 and the accesses in retsnoop.c).
Parallel arrays are functions from index; depths and sizes are `Nat`
(they are non-negative counters in every use site); captured results are
raw 64-bit patterns (`Nat`), latencies are signed 64-bit values (`Int`). -/

structure call_stack where
  is_err : Bool
  depth : Nat
  max_depth : Nat
  func_ids : Nat → Nat
  func_res : Nat → Nat
  func_lat : Nat → Int
  saved_depth : Nat
  saved_max_depth : Nat
  saved_ids : Nat → Nat
  saved_res : Nat → Nat
  saved_lat : Nat → Int
  kstack_sz : Nat
  kstack : Nat → Nat

/-- fexit logical stack trace item (`struct fstack_item`). -/
structure fstack_item where
  name : String
  res : Int
  lat : Int
  finished : Bool
  stitched : Bool
deriving DecidableEq, Inhabited

/-- The read-only context `filter_fstack` consults: the attacher's
per-function name table (`mass_attacher__func(att, id)->name`) and the
skeleton's per-function flag table (`skel->bss->func_flags[id]`). -/
structure Ctx where
  func_name : Nat → String
  flags : Nat → Nat

/-- One slot written by the primary loop of `filter_fstack`
(retsnoop.c:297-317).  `old` is the previous content of the static
`fstack` slot: the C code updates fields in place and, for `i < s->depth`,
never writes `finished`, so that field keeps its stale value.  The
`else` branch's `fitem->lat = 0` is dead: line 316 unconditionally
overwrites `lat` with `s->func_lat[i]`. -/
def fstack_slot (ctx : Ctx) (s : call_stack) (old : fstack_item) (i : Nat) : fstack_item :=
  { name := ctx.func_name (s.func_ids i)
    stitched := false
    finished := if s.depth ≤ i then true else old.finished
    res := if (ctx.flags (s.func_ids i)).land FUNC_NEEDS_SIGN_EXT ≠ 0
           then sign_ext_32 (s.func_res i)
           else to_int64 (s.func_res i)
    lat := s.func_lat i }

/-- One slot written by the stitched-continuation loop of `filter_fstack`
(retsnoop.c:323-338); every field is written, so the old slot content is
irrelevant. -/
def fstack_saved_slot (ctx : Ctx) (s : call_stack) (i : Nat) : fstack_item :=
  { name := ctx.func_name (s.saved_ids i)
    stitched := true
    finished := true
    lat := s.saved_lat i
    res := if (ctx.flags (s.saved_ids i)).land FUNC_NEEDS_SIGN_EXT ≠ 0
           then sign_ext_32 (s.saved_res i)
           else to_int64 (s.saved_res i) }

/-- Number of frames produced by `filter_fstack` (the returned `cnt`).
The primary loop contributes `max_depth` slots; the saved loop runs
`for (i = saved_depth - 1; i < saved_max_depth; i++)`, i.e.
`saved_max_depth - (saved_depth - 1)` iterations (0 when the bound is
already met), and only when `max_depth + 1 == saved_depth`. -/
def filter_fstack_cnt (s : call_stack) : Nat :=
  if s.max_depth + 1 = s.saved_depth
  then s.max_depth + (s.saved_max_depth - (s.saved_depth - 1))
  else s.max_depth

/-- The static `fstack` array after `filter_fstack` ran: slots
`0..max_depth-1` are written by the primary loop (slot index equals loop
index there), slots `max_depth..cnt-1` by the saved loop (slot
`max_depth + j` holds saved position `saved_depth - 1 + j`), and all other
slots keep their previous contents. -/
def filter_fstack_arr (ctx : Ctx) (r : Nat → fstack_item) (s : call_stack) :
    Nat → fstack_item := fun k =>
  if k < s.max_depth then fstack_slot ctx s (r k) k
  else if s.max_depth + 1 = s.saved_depth ∧ k < filter_fstack_cnt s then
    fstack_saved_slot ctx s (s.saved_depth - 1 + (k - s.max_depth))
  else r k

/-- The logical-frame sequence produced by `filter_fstack`: the first
`cnt` slots of the updated static array. -/
def filter_fstack (ctx : Ctx) (r : Nat → fstack_item) (s : call_stack) :
    List fstack_item :=
  (List.range (filter_fstack_cnt s)).map (filter_fstack_arr ctx r s)

/-! **Kernel stack trace items** (`struct kstack_item`) and the symbol
pattern predicates.  `struct ksym` (from ksyms.h, an external collaborator)
is a name plus a start address; `ksyms__map_addr` is modelled as an
arbitrary lookup function `Nat → Option Ksym`.  The C code compares
`r[i].ksym == r[i + 2].ksym` by pointer; two addresses resolving to the
same symbol yield the same table entry, modelled as value equality. -/

structure Ksym where
  name : String
  addr : Nat
deriving DecidableEq, Inhabited

structure kstack_item where
  ksym : Option Ksym
  addr : Nat
  filtered : Bool
deriving DecidableEq, Inhabited

/-- Character-list version of C `strncmp(hay, pat, |pat|) == 0`. -/
def starts_with_chars : List Char → List Char → Bool
  | [], _ => true
  | _ :: _, [] => false
  | p :: ps, h :: hs => p = h && starts_with_chars ps hs

/-- C `isxdigit`. -/
def is_hex_digit (c : Char) : Bool :=
  c.isDigit || ('a' ≤ c && c ≤ 'f') || ('A' ≤ c && c ≤ 'F')

/-- `is_bpf_tramp` (retsnoop.c:350-359): the name starts with
`bpf_trampoline_` (15 characters) and the character at index
`sizeof("bpf_trampoline_")` = 16 is a digit (the C check skips index 15).
Reading past the stored name yields the NUL terminator, modelled as the
non-digit default. -/
def is_bpf_tramp (item : kstack_item) : Bool :=
  match item.ksym with
  | none => false
  | some k =>
    starts_with_chars "bpf_trampoline_".data k.name.data
      && (k.name.data.getD 16 (Char.ofNat 0)).isDigit

/-- `is_bpf_prog` (retsnoop.c:361-370): the name starts with `bpf_prog_`
(9 characters) and the character at index `sizeof("bpf_prog_")` = 10 is a
hex digit (the C check skips index 9). -/
def is_bpf_prog (item : kstack_item) : Bool :=
  match item.ksym with
  | none => false
  | some k =>
    starts_with_chars "bpf_prog_".data k.name.data
      && is_hex_digit (k.name.data.getD 10 (Char.ofNat 0))

def FTRACE_OFFSET : Nat := 0x5

/-- The trampoline-bridge condition of retsnoop.c:421-423 at the current
read position: at least two further frames exist (`i + 2 < n`), the next
frame is a trampoline, the frame two ahead resolves to the same symbol,
and this frame sits exactly `FTRACE_OFFSET` past its symbol entry
(64-bit C subtraction). -/
def kstack_bridge (a : kstack_item) (rest : List kstack_item) : Bool :=
  match rest with
  | b :: c :: _ =>
    is_bpf_tramp b && decide (a.ksym = c.ksym)
      && (match a.ksym with
          | some k => decide (sub_wrap64 a.addr k.addr = FTRACE_OFFSET)
          | none => false)
  | _ => false

/-- The instrumentation-noise condition of retsnoop.c:442-443 (only
evaluated on frames with a resolved symbol). -/
def kstack_noise (a : kstack_item) : Bool :=
  is_bpf_tramp a || is_bpf_prog a
    || (match a.ksym with
        | some k => decide (k.name = "bpf_get_stack_raw_tp")
        | none => false)

/-- Frames the repair pass emits for the frame at the current read
position (given the remaining frames after it).  This is the functional
content of the in-place loop at retsnoop.c:394-456: the loop's write
cursor `p` never exceeds its read cursor `i`, so the conditions only ever
read original values (`r[i]`, `r[i+1]`, `r[i+2]` at indices `≥ i`, while
writes happen at indices `≤ i`); a slot stored without `p++` is either
overwritten at the next iteration or lies beyond the returned length, so
exactly the `p++` branches emit. -/
def kstack_emit (verbose : Bool) (a : kstack_item) (rest : List kstack_item) :
    List kstack_item :=
  if a.ksym = none then [a]
  else if kstack_bridge a rest then
    (if verbose then [{ a with filtered := true }] else [])
  else if kstack_noise a then
    (if verbose then [{ a with filtered := true }] else [])
  else [a]

/-- The post-processing (repair) pass of `filter_kstack`
(second loop, retsnoop.c:394-456). -/
def kstack_repair (verbose : Bool) : List kstack_item → List kstack_item
  | [] => []
  | a :: rest => kstack_emit verbose a rest ++ kstack_repair verbose rest

/-- The resolution pass of `filter_kstack` (retsnoop.c:380-389): take
`n = kstack_sz / 8` addresses, reverse them into natural call order
(`r[n - i - 1].addr = s->kstack[i]`, i.e. slot `j` holds raw entry
`n - 1 - j`), and resolve each through the symbol table. -/
def kstack_resolve (ksyms : Nat → Option Ksym) (s : call_stack) :
    List kstack_item :=
  let n := s.kstack_sz / 8
  (List.range n).map fun j =>
    { addr := s.kstack (n - 1 - j)
      filtered := false
      ksym := ksyms (s.kstack (n - 1 - j)) }

/-- `filter_kstack` (retsnoop.c:374-459): resolve and reverse, then
repair. -/
def filter_kstack (verbose : Bool) (ksyms : Nat → Option Ksym)
    (s : call_stack) : List kstack_item :=
  kstack_repair verbose (kstack_resolve ksyms s)

/-! **The two-pointer merge** of `handle_event` (retsnoop.c:657-695).
Each emitted element models one `print_item(ctx, fitem, kitem)` call,
carrying which of the two frames were passed. -/

/-- The kernel-frame-alone condition of retsnoop.c:676-677:
`!kitem->ksym || kitem->filtered || strcmp(kitem->ksym->name, fitem->name) != 0`. -/
def merge_keep_kernel (f : fstack_item) (k : kstack_item) : Bool :=
  match k.ksym with
  | none => true
  | some sym => k.filtered || decide (sym.name ≠ f.name)

/-- One round of the merge loop for the current logical frame `f`
(retsnoop.c:659-688): exhaust kernel frames that fail the alignment test
(emitting each alone, advancing only the kernel cursor); on a match, emit
the combined line and continue with the rest of the logical frames
(`fs_rec`, applied to the remaining kernel frames); if the kernel frames
run out first, emit the logical frame alone. -/
def merge_step (f : fstack_item)
    (fs_rec : List kstack_item → List (Option fstack_item × Option kstack_item)) :
    List kstack_item → List (Option fstack_item × Option kstack_item)
  | [] => (some f, none) :: fs_rec []
  | k :: ks =>
    if merge_keep_kernel f k
    then (none, some k) :: merge_step f fs_rec ks
    else (some f, some k) :: fs_rec ks

/-- The merge loop (retsnoop.c:657-688) followed by the trailing kernel
flush (retsnoop.c:690-692): while logical frames remain, each is handled
by `merge_step`; once logical frames are exhausted, remaining kernel
frames are emitted alone. -/
def merge_loop : List fstack_item → List kstack_item →
    List (Option fstack_item × Option kstack_item)
  | [], ks => ks.map fun k => (none, some k)
  | f :: fs, ks => merge_step f (merge_loop fs) ks

/-- `handle_event` (retsnoop.c:623-697), restricted to its observable
output lines: non-error records are skipped; otherwise the record is
reconstructed, filtered and merged.  `prev` is the prior content of the
static `fstack` array (the C array persists across events).  Note that no
bound on `max_depth` or `kstack_sz` is checked anywhere on this path. -/
def handle_event (verbose : Bool) (ctx : Ctx) (ksyms : Nat → Option Ksym)
    (prev : Nat → fstack_item) (s : call_stack) :
    List (Option fstack_item × Option kstack_item) :=
  if !s.is_err then []
  else merge_loop (filter_fstack ctx prev s) (filter_kstack verbose ksyms s)

/-! **Return-type classifier** (`func_flags`, retsnoop.c:699-725).
The BTF type graph is modelled as an inductive tree: `modifier` covers the
BTF modifier kinds (`const`/`volatile`/`restrict`), `typedefT` a typedef
layer, `int sz signed` an integer of byte size `sz`, `composite sz` any
other sized kind.  The C function receives the BTF func entry, resolves it
to the func proto, and treats a zero return-type id as void; that resolved
return type is modelled as `Option Btf` (`none` = void-like). -/

inductive Btf where
  | ptr : Btf
  | int : Nat → Bool → Btf
  | modifier : Btf → Btf
  | typedefT : Btf → Btf
  | composite : Nat → Btf
deriving DecidableEq

/-- The `while (btf_is_mod(t) || btf_is_typedef(t))` unwrapping loop
(retsnoop.c:706-707). -/
def btf_unwrap : Btf → Btf
  | .modifier t => btf_unwrap t
  | .typedefT t => btf_unwrap t
  | .ptr => .ptr
  | .int sz sg => .int sz sg
  | .composite sz => .composite sz

def btf_is_ptr : Btf → Bool
  | .ptr => true
  | _ => false

def btf_is_int : Btf → Bool
  | .int _ _ => true
  | _ => false

/-- `btf_int_encoding(t) & BTF_INT_SIGNED` for an int type. -/
def btf_int_signed : Btf → Bool
  | .int _ sg => sg
  | _ => false

/-- `t->size` of the unwrapped type. -/
def btf_size : Btf → Nat
  | .ptr => 8
  | .int sz _ => sz
  | .composite sz => sz
  | .modifier t => btf_size t
  | .typedefT t => btf_size t

/-- `func_flags` (retsnoop.c:699-725): classify a resolved return type. -/
def func_flags (ret : Option Btf) : Nat :=
  match ret with
  | none => FUNC_CANT_FAIL
  | some t0 =>
    let t := btf_unwrap t0
    if btf_is_ptr t then FUNC_RET_PTR
    else if btf_is_int t && !btf_int_signed t then FUNC_CANT_FAIL
    else if btf_size t < 4 then FUNC_CANT_FAIL
    else if btf_size t = 4 then FUNC_NEEDS_SIGN_EXT
    else 0

/-! **Error-code decoder** (`err_to_str`, retsnoop.c:461-508).
The designated-initializer array is modelled as an association list; a
missing index is a NULL slot.  `err_names_size` is
`ARRAY_SIZE(err_names)`: the array extends to its largest designated
index, 530, so its length is 531.  The C comparison
`err < ARRAY_SIZE(err_names)` converts the signed `long` to `size_t`,
modelled by `to_u64`; `err = -err` on `LONG_MIN` wraps back to `LONG_MIN`,
modelled by `wrap_i64`. -/

def err_name_entries : List (Nat × String) := [
  (1, "EPERM"), (2, "ENOENT"), (3, "ESRCH"),
  (4, "EINTR"), (5, "EIO"), (6, "ENXIO"), (7, "E2BIG"),
  (8, "ENOEXEC"), (9, "EBADF"), (10, "ECHILD"), (11, "EAGAIN"),
  (12, "ENOMEM"), (13, "EACCES"), (14, "EFAULT"), (15, "ENOTBLK"),
  (16, "EBUSY"), (17, "EEXIST"), (18, "EXDEV"), (19, "ENODEV"),
  (20, "ENOTDIR"), (21, "EISDIR"), (22, "EINVAL"), (23, "ENFILE"),
  (24, "EMFILE"), (25, "ENOTTY"), (26, "ETXTBSY"), (27, "EFBIG"),
  (28, "ENOSPC"), (29, "ESPIPE"), (30, "EROFS"), (31, "EMLINK"),
  (32, "EPIPE"), (33, "EDOM"), (34, "ERANGE"), (35, "EDEADLK"),
  (36, "ENAMETOOLONG"), (37, "ENOLCK"), (38, "ENOSYS"), (39, "ENOTEMPTY"),
  (40, "ELOOP"), (42, "ENOMSG"), (43, "EIDRM"), (44, "ECHRNG"),
  (45, "EL2NSYNC"), (46, "EL3HLT"), (47, "EL3RST"), (48, "ELNRNG"),
  (49, "EUNATCH"), (50, "ENOCSI"), (51, "EL2HLT"), (52, "EBADE"),
  (53, "EBADR"), (54, "EXFULL"), (55, "ENOANO"), (56, "EBADRQC"),
  (57, "EBADSLT"), (59, "EBFONT"), (60, "ENOSTR"), (61, "ENODATA"),
  (62, "ETIME"), (63, "ENOSR"), (64, "ENONET"), (65, "ENOPKG"),
  (66, "EREMOTE"), (67, "ENOLINK"), (68, "EADV"), (69, "ESRMNT"),
  (70, "ECOMM"), (71, "EPROTO"), (72, "EMULTIHOP"), (73, "EDOTDOT"),
  (74, "EBADMSG"), (75, "EOVERFLOW"), (76, "ENOTUNIQ"), (77, "EBADFD"),
  (78, "EREMCHG"), (79, "ELIBACC"), (80, "ELIBBAD"), (81, "ELIBSCN"),
  (82, "ELIBMAX"), (83, "ELIBEXEC"), (84, "EILSEQ"), (85, "ERESTART"),
  (86, "ESTRPIPE"), (87, "EUSERS"), (88, "ENOTSOCK"), (89, "EDESTADDRREQ"),
  (90, "EMSGSIZE"), (91, "EPROTOTYPE"), (92, "ENOPROTOOPT"), (93, "EPROTONOSUPPORT"),
  (94, "ESOCKTNOSUPPORT"), (95, "EOPNOTSUPP"), (96, "EPFNOSUPPORT"), (97, "EAFNOSUPPORT"),
  (98, "EADDRINUSE"), (99, "EADDRNOTAVAIL"), (100, "ENETDOWN"), (101, "ENETUNREACH"),
  (102, "ENETRESET"), (103, "ECONNABORTED"), (104, "ECONNRESET"), (105, "ENOBUFS"),
  (106, "EISCONN"), (107, "ENOTCONN"), (108, "ESHUTDOWN"), (109, "ETOOMANYREFS"),
  (110, "ETIMEDOUT"), (111, "ECONNREFUSED"), (112, "EHOSTDOWN"), (113, "EHOSTUNREACH"),
  (114, "EALREADY"), (115, "EINPROGRESS"), (116, "ESTALE"), (117, "EUCLEAN"),
  (118, "ENOTNAM"), (119, "ENAVAIL"), (120, "EISNAM"), (121, "EREMOTEIO"),
  (122, "EDQUOT"), (123, "ENOMEDIUM"), (124, "EMEDIUMTYPE"), (125, "ECANCELED"),
  (126, "ENOKEY"), (127, "EKEYEXPIRED"), (128, "EKEYREVOKED"), (129, "EKEYREJECTED"),
  (130, "EOWNERDEAD"), (131, "ENOTRECOVERABLE"), (132, "ERFKILL"), (133, "EHWPOISON"),
  (512, "ERESTARTSYS"), (513, "ERESTARTNOINTR"), (514, "ERESTARTNOHAND"), (515, "ENOIOCTLCMD"),
  (516, "ERESTART_RESTARTBLOCK"), (517, "EPROBE_DEFER"), (518, "EOPENSTALE"), (519, "ENOPARAM"),
  (521, "EBADHANDLE"), (522, "ENOTSYNC"), (523, "EBADCOOKIE"), (524, "ENOTSUPP"),
  (525, "ETOOSMALL"), (526, "ESERVERFAULT"), (527, "EBADTYPE"), (528, "EJUKEBOX"),
  (529, "EIOCBQUEUED"), (530, "ERECALLCONFLICT")]

/-- `ARRAY_SIZE(err_names)`: largest designated index 530, so 531. -/
def err_names_size : Nat := 530 + 1

/-- The static array content at index `i`: the designated entry if
present, otherwise the NULL slot. -/
def err_names (i : Nat) : Option String :=
  err_name_entries.lookup i

/-- `err_to_str` (retsnoop.c:461-508). -/
def err_to_str (err : Int) : Option String :=
  let e : Int := if err < 0 then wrap_i64 (-err) else err
  if to_u64 e < err_names_size then err_names (to_u64 e) else none

/-! **Source-location normalizer** (`detect_linux_src_loc`,
retsnoop.c:510-528) and the result renderer fragment of `print_item`
(retsnoop.c:558-575). -/

/-- `pat` occurs in `hay` starting at index `i`. -/
def occurs_at (pat hay : List Char) (i : Nat) : Bool :=
  starts_with_chars pat (hay.drop i)

/-- C `strstr`: index of the first occurrence of `pat` in `hay`
(`none` if absent). -/
def strstr_pos (hay pat : List Char) : Option Nat :=
  (List.range (hay.length + 1)).find? (occurs_at pat hay)

/-- The `linux_dirs` table (retsnoop.c:512-517), in source order,
duplicate `lib/` included. -/
def linux_dirs : List String := [
  "arch/", "kernel/", "include/", "block/", "fs/", "net/",
  "drivers/", "mm/", "ipc/", "security/", "lib/", "crypto/",
  "certs/", "init/", "lib/", "scripts/", "sound/", "tools/",
  "usr/", "virt/"]

/-- `detect_linux_src_loc` (retsnoop.c:510-528): for each table entry in
order, run `strstr`; return the offset of the first entry that occurs
anywhere in the path, else 0. -/
def detect_linux_src_loc (path : String) : Nat :=
  match linux_dirs.findSome? (fun d => strstr_pos path.data d.data) with
  | some k => k
  | none => 0

/-- Modelled from the spec: the claim/spec sentence reads "the substring
of the path starting at the first occurrence of any of the fixed set of
directory names", i.e. the earliest position in the path at which any
table entry occurs.  Stated only to compare against the source
`detect_linux_src_loc`. -/
def detect_linux_src_loc_spec (path : String) : Nat :=
  match (linux_dirs.filterMap (fun d => strstr_pos path.data d.data)).min? with
  | some k => k
  | none => 0

/-- The result/latency text fragment chosen by `print_item`
(retsnoop.c:558-575): pending marker for unfinished frames, NULL marker
for a zero result, a decoded name when the table has one, otherwise the
literal signed number in brackets. -/
def render_res (f : fstack_item) : String :=
  if !f.finished then "[...]"
  else if f.res = 0 then "[NULL]"
  else
    match err_to_str f.res with
    | some s => "[-" ++ s ++ "]"
    | none => "[" ++ toString f.res ++ "]"

/-! **Concrete fixtures** used by counterexamples and witnesses. -/

/-- A small concrete function table for tests: ids 0 and 1 named, id 1
classified as needing sign-extension. -/
def test_ctx : Ctx :=
  { func_name := fun i => if i = 0 then "funcA" else if i = 1 then "funcB" else "funcX"
    flags := fun i => if i = 1 then FUNC_NEEDS_SIGN_EXT else 0 }

/-- The zero-initialized static `fstack` array at program start. -/
def zero_fstack : Nat → fstack_item := fun _ => default

/-- An all-zero record to build concrete events from. -/
def zero_call_stack : call_stack :=
  { is_err := true, depth := 0, max_depth := 0
    func_ids := fun _ => 0, func_res := fun _ => 0, func_lat := fun _ => 0
    saved_depth := 0, saved_max_depth := 0
    saved_ids := fun _ => 0, saved_res := fun _ => 0, saved_lat := fun _ => 0
    kstack_sz := 0, kstack := fun _ => 0 }

/-- Degenerate stitched record: the stitching trigger holds
(`max_depth + 1 = 2 = saved_depth`) but `saved_max_depth = 0`, so the
saved loop `for (i = 1; i < 0; ...)` runs zero times. -/
def degenerate_stitch_rec : call_stack :=
  { zero_call_stack with depth := 0, max_depth := 1, saved_depth := 2, saved_max_depth := 0 }

/-- First event of the stale-flag scenario: one frame, already returned
(`depth = 0 ≤ 0`), so slot 0 of the static array gets `finished = true`. -/
def stale_ev1 : call_stack :=
  { zero_call_stack with depth := 0, max_depth := 1 }

/-- Second event of the stale-flag scenario: one frame that was still on
the stack (`pos 0 < depth = 1`); the primary loop takes the `else` branch
and never writes `finished` for slot 0. -/
def stale_ev2 : call_stack :=
  { zero_call_stack with depth := 1, max_depth := 1 }

/-- A record whose `max_depth` exceeds the fixed `fstack` capacity by
one: in the C code this drives `r[cnt]` past the end of
`static struct fstack_item fstack[MAX_FSTACK_DEPTH]`. -/
def oversized_rec : call_stack :=
  { zero_call_stack with depth := MAX_FSTACK_DEPTH + 1, max_depth := MAX_FSTACK_DEPTH + 1 }

/-- `bpf_map_alloc_percpu` at its entry address from the retsnoop.c:404
comment block. -/
def map_sym : Ksym := { name := "bpf_map_alloc_percpu", addr := 0xffffffff8116a3d0 }

/-- The trampoline symbol from the retsnoop.c:404 comment block. -/
def tramp_sym : Ksym := { name := "bpf_trampoline_6442494949_0", addr := 0xffffffffa16db000 }

/-- A concrete symbol table resolving exactly the three scenario
addresses. -/
def demo_ksyms : Nat → Option Ksym := fun a =>
  if a = 0xffffffff8116a3d5 || a = 0xffffffff8116a40f then some map_sym
  else if a = 0xffffffffa16db06d then some tramp_sym
  else none

/-- Resolved frame `bpf_map_alloc_percpu+0x3f`. -/
def k3f : kstack_item := { ksym := some map_sym, addr := 0xffffffff8116a40f, filtered := false }

/-- Resolved frame `bpf_trampoline_6442494949_0+0x6d`. -/
def ktr : kstack_item := { ksym := some tramp_sym, addr := 0xffffffffa16db06d, filtered := false }

/-- Resolved frame `bpf_map_alloc_percpu+0x5`. -/
def k05 : kstack_item := { ksym := some map_sym, addr := 0xffffffff8116a3d5, filtered := false }

/-- The scenario record: `kstack` holds, in capture order, the trace
listed by the spec scenario
(`bpf_map_alloc_percpu+0x3f`, `bpf_trampoline_6442494949_0+0x6d`,
`bpf_map_alloc_percpu+0x5`); three 8-byte entries. -/
def scen_rec : call_stack :=
  { zero_call_stack with
    kstack_sz := 24
    kstack := fun i =>
      if i = 0 then 0xffffffff8116a40f
      else if i = 1 then 0xffffffffa16db06d
      else if i = 2 then 0xffffffff8116a3d5
      else 0 }

/-- A logical frame for the merge-alignment witness. -/
def wit_f : fstack_item :=
  { name := "funcA", res := -22, lat := 1000, finished := true, stitched := false }

/-- A kernel frame resolving to the same symbol name. -/
def wit_k : kstack_item :=
  { ksym := some { name := "funcA", addr := 4096 }, addr := 4160, filtered := false }

/-- The single frame the verbose repair pass keeps for the frame at the
current read position: marked filtered when a repair rule matches, never
dropped (used to state the verbose case of `kstack_repair` compactly). -/
def mark_one (a : kstack_item) (rest : List kstack_item) : kstack_item :=
  if a.ksym = none then a
  else if kstack_bridge a rest || kstack_noise a then { a with filtered := true }
  else a

/-! ## Theorems -/

/-- Claim C1, counterexample: for the degenerate stitched record
(`max_depth = 1`, `saved_depth = 2`, `saved_max_depth = 0`) the stitching
trigger holds, yet the reconstructed stack has 1 frame while the claimed
count `maxDepth + (savedMaxDepth - savedDepth + 1)` is 0: the saved loop
`for (i = saved_depth - 1; i < saved_max_depth; ...)` simply runs zero
times, so the claimed length formula fails. -/
theorem filter_fstack_length_counterexample :
    degenerate_stitch_rec.max_depth + 1 = degenerate_stitch_rec.saved_depth ∧
    ((filter_fstack test_ctx zero_fstack degenerate_stitch_rec).length : Int) ≠
      (degenerate_stitch_rec.max_depth : Int) +
        ((degenerate_stitch_rec.saved_max_depth : Int) -
          (degenerate_stitch_rec.saved_depth : Int) + 1) := by
  decide

/-- Claim C1 (amended): for a record without the stitching trigger
(`maxDepth + 1 ≠ savedDepth`) the logical stack has exactly `maxDepth`
frames, none stitched, and the saved-segment fields are ignored; with the
trigger and the added non-degeneracy condition `maxDepth ≤ savedMaxDepth`
the stack has `maxDepth + (savedMaxDepth - savedDepth + 1)` frames and
every frame at index `maxDepth` onward is stitched and finished. -/
theorem filter_fstack_length_amended (ctx : Ctx) (r : Nat → fstack_item)
    (s : call_stack) :
    (s.max_depth + 1 ≠ s.saved_depth →
      (filter_fstack ctx r s).length = s.max_depth ∧
      (∀ fr ∈ filter_fstack ctx r s, fr.stitched = false) ∧
      (∀ g h l d, filter_fstack ctx r
          { s with saved_ids := g, saved_res := h, saved_lat := l,
                   saved_max_depth := d } =
        filter_fstack ctx r s)) ∧
    (s.max_depth + 1 = s.saved_depth → s.max_depth ≤ s.saved_max_depth →
      ((filter_fstack ctx r s).length : Int) =
        (s.max_depth : Int) +
          ((s.saved_max_depth : Int) - (s.saved_depth : Int) + 1) ∧
      (∀ i (hi : i < (filter_fstack ctx r s).length), s.max_depth ≤ i →
        ((filter_fstack ctx r s).get ⟨i, hi⟩).stitched = true ∧
        ((filter_fstack ctx r s).get ⟨i, hi⟩).finished = true)) := by
  constructor
  · intro hne
    have hcnt : filter_fstack_cnt s = s.max_depth := by
      simp [filter_fstack_cnt, hne]
    refine ⟨by simp [filter_fstack, hcnt], ?_, ?_⟩
    · intro fr hfr
      rw [filter_fstack, List.mem_map] at hfr
      obtain ⟨k, hk, rfl⟩ := hfr
      rw [hcnt, List.mem_range] at hk
      simp [filter_fstack_arr, hk, fstack_slot]
    · intro g h l d
      have hcnt' : filter_fstack_cnt
          { s with saved_ids := g, saved_res := h, saved_lat := l,
                   saved_max_depth := d } = s.max_depth := by
        simp [filter_fstack_cnt, hne]
      rw [filter_fstack, filter_fstack, hcnt, hcnt']
      apply List.map_congr_left
      intro a ha
      rw [List.mem_range] at ha
      simp [filter_fstack_arr, ha, fstack_slot]
  · intro heq hle
    have hcnt : filter_fstack_cnt s = s.saved_max_depth := by
      rw [filter_fstack_cnt, if_pos heq]
      omega
    have hlen : (filter_fstack ctx r s).length = s.saved_max_depth := by
      simp [filter_fstack, hcnt]
    constructor
    · rw [hlen]; omega
    · intro i hi hmi
      rw [hlen] at hi
      have hival : (filter_fstack ctx r s).get ⟨i, by simpa [filter_fstack, hcnt]⟩ =
          filter_fstack_arr ctx r s i := by
        simp [filter_fstack]
      rw [hival]
      have h1 : ¬ i < s.max_depth := by omega
      have h2 : i < filter_fstack_cnt s := by omega
      rw [filter_fstack_arr]
      simp only [h1, if_false, heq, h2, and_self, if_true, ite_true]
      simp [fstack_saved_slot]

/-- Claim C1, witness for the amended theorem: a concrete non-stitched
record (`max_depth = 1`, `saved_depth = 5`) and a concrete stitched
record (`max_depth = 1`, `saved_depth = 2`, `saved_max_depth = 3`). -/
theorem filter_fstack_length_amended_witness :
    ((filter_fstack test_ctx zero_fstack
        { zero_call_stack with max_depth := 1, saved_depth := 5 }).length = 1) ∧
    (((filter_fstack test_ctx zero_fstack
        { zero_call_stack with max_depth := 1, saved_depth := 2,
                               saved_max_depth := 3 }).length : Int) = 1 + (3 - 2 + 1)) := by
  constructor
  · exact ((filter_fstack_length_amended test_ctx zero_fstack
      { zero_call_stack with max_depth := 1, saved_depth := 5 }).1 (by decide)).1
  · have h := ((filter_fstack_length_amended test_ctx zero_fstack
      { zero_call_stack with max_depth := 1, saved_depth := 2,
                             saved_max_depth := 3 }).2 (by decide) (by decide)).1
    simpa using h

/-- Claim C2 (code bug): the primary loop of `filter_fstack` writes
`finished = true` only for `i >= s->depth` and never writes `false` in
the `else` branch, while the `fstack` array it fills is `static` in
`handle_event` and persists across events.  Processing `stale_ev1`
(one frame, `depth = 0`, so slot 0 gets `finished = true`) and then
`stale_ev2` (`depth = 1 > pos 0`) leaves the stale `finished = true` on a
frame that the claim requires to be unfinished; it is then rendered as a
completed call with a latency instead of the pending marker. -/
theorem filter_fstack_stale_finished :
    0 < stale_ev2.depth ∧
    ((filter_fstack test_ctx
        (filter_fstack_arr test_ctx zero_fstack stale_ev1)
        stale_ev2).getD 0 default).finished = true ∧
    render_res ((filter_fstack test_ctx
        (filter_fstack_arr test_ctx zero_fstack stale_ev1)
        stale_ev2).getD 0 default) ≠ "[...]" ∧
    ((filter_fstack test_ctx zero_fstack stale_ev2).getD 0 default).finished = false := by
  refine ⟨by decide, by decide, ?_, by decide⟩
  decide

/-- Claim C3 (code bug): nothing on the `handle_event` path bounds-checks
`max_depth` (or `kstack_sz`) against the fixed capacities.  A record with
`max_depth = MAX_FSTACK_DEPTH + 1` is not dropped and produces
`MAX_FSTACK_DEPTH + 1` frames — in the C code these are written through
`r[cnt]` past the end of `static struct fstack_item fstack[MAX_FSTACK_DEPTH]`,
and the event is fully processed with no diagnostic. -/
theorem no_bounds_check_overflow :
    MAX_FSTACK_DEPTH < oversized_rec.max_depth ∧
    (filter_fstack test_ctx zero_fstack oversized_rec).length =
      MAX_FSTACK_DEPTH + 1 ∧
    (handle_event false test_ctx (fun _ => none) zero_fstack
        oversized_rec).length = MAX_FSTACK_DEPTH + 1 := by
  decide

/-- Claim C4, counterexample: feeding the spec's scenario trace
`[bpf_map_alloc_percpu+0x3f, bpf_trampoline_6442494949_0+0x6d,
bpf_map_alloc_percpu+0x5]` to the repair pass in the order the claim
labels it ("already outermost-first") does not collapse it: the bridge
test at the first frame fails (`0x3f ≠ FTRACE_OFFSET`), only the
trampoline frame is dropped, and two frames remain in non-verbose mode;
in verbose mode the first frame is not the one marked filtered. -/
theorem filter_kstack_order_counterexample :
    kstack_repair false [k3f, ktr, k05] = [k3f, k05] ∧
    kstack_repair false [k3f, ktr, k05] ≠ [k3f] ∧
    ((kstack_repair true [k3f, ktr, k05]).getD 0 default).filtered = false := by
  decide

/-- Claim C4 (amended): the general trampoline-bridge behaviour, plus the
spec scenario with the listed trace read as the raw capture order
(innermost-first, as the kernel delivers it), which after the filter's
own reversal puts `bpf_map_alloc_percpu+0x5` outermost: then non-verbose
filtering collapses the three frames to the single frame
`bpf_map_alloc_percpu+0x3f`, and verbose filtering keeps three frames
with the first marked filtered. -/
theorem filter_kstack_tramp_bridge_amended :
    (∀ (a b c : kstack_item) (k : Ksym),
      is_bpf_tramp b = true → a.ksym = some k → c.ksym = some k →
      sub_wrap64 a.addr k.addr = FTRACE_OFFSET → kstack_noise c = false →
      kstack_repair false [a, b, c] = [c] ∧
      kstack_repair true [a, b, c] =
        [{ a with filtered := true }, { b with filtered := true }, c]) ∧
    filter_kstack false demo_ksyms scen_rec = [k3f] ∧
    filter_kstack true demo_ksyms scen_rec =
      [{ k05 with filtered := true }, { ktr with filtered := true }, k3f] := by
  refine ⟨?_, by decide, by decide⟩
  intro a b c k htr hak hck hoff hcn
  obtain ⟨kb, hkb⟩ : ∃ kb, b.ksym = some kb := by
    cases hb : b.ksym with
    | none => rw [is_bpf_tramp, hb] at htr; cases htr
    | some kb => exact ⟨kb, rfl⟩
  have hbr : kstack_bridge a [b, c] = true := by
    simp [kstack_bridge, htr, hak, hck, hoff]
  have hbn : kstack_noise b = true := by
    simp [kstack_noise, htr]
  have hbrb : kstack_bridge b [c] = false := by simp [kstack_bridge]
  have hbrc : kstack_bridge c [] = false := by simp [kstack_bridge]
  constructor
  · simp [kstack_repair, kstack_emit, hak, hkb, hck, hbr, hbn, hbrb, hbrc, hcn]
  · simp [kstack_repair, kstack_emit, hak, hkb, hck, hbr, hbn, hbrb, hbrc, hcn]

/-- Claim C4, witness: the general bridge statement applied at the
concrete scenario frames (with `bpf_map_alloc_percpu+0x5` at the read
position). -/
theorem filter_kstack_tramp_bridge_amended_witness :
    kstack_repair false [k05, ktr, k3f] = [k3f] ∧
    kstack_repair true [k05, ktr, k3f] =
      [{ k05 with filtered := true }, { ktr with filtered := true }, k3f] := by
  exact filter_kstack_tramp_bridge_amended.1 k05 ktr k3f map_sym
    (by decide) (by decide) (by decide) (by decide) (by decide)

/-- Claim C5: whenever the merger emits a combined line (both a logical
and a kernel frame), the kernel frame is resolved, not filtered, and its
symbol name equals the logical frame's function name; by the shape of
`merge_step`, every kernel frame that fails this test is emitted alone
with only the kernel cursor advancing. -/
theorem merge_loop_alignment :
    ∀ (fs : List fstack_item) (ks : List kstack_item)
      (f : fstack_item) (k : kstack_item),
      (some f, some k) ∈ merge_loop fs ks →
      k.filtered = false ∧ ∃ sym, k.ksym = some sym ∧ sym.name = f.name := by
  intro fs
  induction fs with
  | nil =>
    intro ks f k h
    rw [merge_loop, List.mem_map] at h
    obtain ⟨x, _, hx⟩ := h
    cases hx
  | cons f0 fs ih =>
    intro ks
    induction ks with
    | nil =>
      intro f k h
      rw [merge_loop, merge_step, List.mem_cons] at h
      rcases h with h | h
      · cases h
      · exact ih [] f k h
    | cons k0 ks ihk =>
      intro f k h
      rw [merge_loop, merge_step] at h
      by_cases hkeep : merge_keep_kernel f0 k0
      · rw [if_pos hkeep, List.mem_cons] at h
        rcases h with h | h
        · cases h
        · exact ihk f k (by rw [merge_loop]; exact h)
      · rw [if_neg hkeep, List.mem_cons] at h
        rcases h with h | h
        · injection h with h1 h2
          injection h1 with h1
          injection h2 with h2
          subst h1
          subst h2
          cases hks : k.ksym with
          | none =>
            rw [merge_keep_kernel, hks] at hkeep
            exact absurd rfl hkeep
          | some sym =>
            rw [merge_keep_kernel, hks] at hkeep
            simp only [Bool.or_eq_true, decide_eq_true_eq, not_or,
              Bool.not_eq_true] at hkeep
            exact ⟨hkeep.1, sym, rfl, not_not.mp hkeep.2⟩
        · exact ih ks f k h

/-- Claim C5, witness: a one-frame logical stack merged with a matching
resolved kernel frame produces the combined line, and the alignment
theorem applies to it. -/
theorem merge_loop_alignment_witness :
    (some wit_f, some wit_k) ∈ merge_loop [wit_f] [wit_k] ∧
    wit_k.filtered = false ∧
    ∃ sym, wit_k.ksym = some sym ∧ sym.name = wit_f.name := by
  have hm : (some wit_f, some wit_k) ∈ merge_loop [wit_f] [wit_k] := by decide
  exact ⟨hm, merge_loop_alignment [wit_f] [wit_k] wit_f wit_k hm⟩

/-- Claim C6: the return-type classifier's case analysis — void-like
returns and unsigned integers and any type narrower than 4 bytes are
"cannot fail"; pointers (after unwrapping modifiers/typedefs) are
"can fail, no sign-extension"; exactly-4-byte signed integers need
sign-extension; wider signed integers get no flags. -/
theorem func_flags_classification :
    func_flags none = FUNC_CANT_FAIL ∧
    (∀ t, btf_unwrap t = .ptr → func_flags (some t) = FUNC_RET_PTR) ∧
    (∀ t sz, btf_unwrap t = .int sz false → func_flags (some t) = FUNC_CANT_FAIL) ∧
    (∀ t t', btf_unwrap t = t' → btf_is_ptr t' = false →
      (btf_is_int t' && !btf_int_signed t') = false → btf_size t' < 4 →
      func_flags (some t) = FUNC_CANT_FAIL) ∧
    (∀ t, btf_unwrap t = .int 4 true → func_flags (some t) = FUNC_NEEDS_SIGN_EXT) ∧
    (∀ t sz, btf_unwrap t = .int sz true → 4 < sz → func_flags (some t) = 0) := by
  refine ⟨rfl, ?_, ?_, ?_, ?_, ?_⟩
  · intro t ht
    simp [func_flags, ht, btf_is_ptr]
  · intro t sz ht
    simp [func_flags, ht, btf_is_ptr, btf_is_int, btf_int_signed]
  · intro t t' ht hp hi hsz
    rw [func_flags]
    simp only [ht, hp, Bool.false_eq_true, if_false, hi, hsz, if_true]
  · intro t ht
    simp [func_flags, ht, btf_is_ptr, btf_is_int, btf_int_signed, btf_size]
  · intro t sz ht hsz
    rw [func_flags]
    simp only [ht, btf_is_ptr, btf_is_int, btf_int_signed, btf_size,
      Bool.and_self, Bool.not_true, Bool.and_false, Bool.false_eq_true, if_false]
    rw [if_neg (by omega), if_neg (by omega)]

/-- Claim C6, witness: the classifier applied to a typedef of a pointer,
an unsigned 4-byte int, a 2-byte signed int, a const 4-byte signed int,
and an 8-byte signed int. -/
theorem func_flags_classification_witness :
    func_flags (some (.typedefT .ptr)) = FUNC_RET_PTR ∧
    func_flags (some (.int 4 false)) = FUNC_CANT_FAIL ∧
    func_flags (some (.int 2 true)) = FUNC_CANT_FAIL ∧
    func_flags (some (.modifier (.int 4 true))) = FUNC_NEEDS_SIGN_EXT ∧
    func_flags (some (.int 8 true)) = 0 := by
  refine ⟨?_, ?_, ?_, ?_, ?_⟩
  · exact func_flags_classification.2.1 (.typedefT .ptr) (by decide)
  · exact func_flags_classification.2.2.1 (.int 4 false) 4 (by decide)
  · exact func_flags_classification.2.2.2.1 (.int 2 true) (.int 2 true)
      (by decide) (by decide) (by decide) (by decide)
  · exact func_flags_classification.2.2.2.2.1 (.modifier (.int 4 true)) (by decide)
  · exact func_flags_classification.2.2.2.2.2 (.int 8 true) 8 (by decide) (by decide)

/-- Claim C7, counterexample: the raw 64-bit pattern `0xFFFFFFFFFFFFFFFF`
has negative low 32 bits, yet reinterpreted without sign-extension
(`(long)v`) it is `-1`, which the decoder maps to `EPERM` — so "the same
raw bits never map to a symbolic error name" fails for captured values
whose upper 32 bits are set. -/
theorem sign_ext_decoder_counterexample :
    2 ^ 31 ≤ (2 ^ 64 - 1) % 2 ^ 32 ∧
    err_to_str (to_int64 (2 ^ 64 - 1)) = some "EPERM" := by
  constructor
  · decide
  · decide

/-- Claim C7 (amended): a captured value with negative low 32 bits always
sign-extends to a negative 64-bit value equal to `low32 - 2^32`; and for
captured 4-byte values (upper 32 bits zero, `v < 2^32`) the raw bits
reinterpreted without sign-extension never decode to an error name. -/
theorem sign_ext_reinterpretation_amended (v : Nat)
    (h : 2 ^ 31 ≤ v % 2 ^ 32) :
    sign_ext_32 v < 0 ∧
    sign_ext_32 v = ((v % 2 ^ 32 : Nat) : Int) - 2 ^ 32 ∧
    (v < 2 ^ 32 → err_to_str (to_int64 v) = none) := by
  have hlt : v % 2 ^ 32 < 2 ^ 32 := Nat.mod_lt _ (by norm_num)
  have hif : sign_ext_32 v = ((v % 2 ^ 32 : Nat) : Int) - 2 ^ 32 := by
    simp only [sign_ext_32]
    rw [if_neg (by omega)]
  refine ⟨?_, hif, ?_⟩
  · rw [hif]
    have : ((v % 2 ^ 32 : Nat) : Int) < 2 ^ 32 := by exact_mod_cast hlt
    omega
  · intro hv32
    have hmod : v % 2 ^ 32 = v := Nat.mod_eq_of_lt hv32
    have hto : to_int64 v = (v : Int) := by
      simp only [to_int64]
      rw [Nat.mod_eq_of_lt (by omega)]
      rw [if_pos (by omega)]
    have hpos : ¬((v : Int) < 0) := by omega
    have hu : to_u64 (v : Int) = v := by
      simp only [to_u64]
      rw [Int.emod_eq_of_lt (by omega) (by omega)]
      simp
    rw [hto]
    simp only [err_to_str]
    rw [if_neg hpos, hu]
    rw [if_neg (by simp only [err_names_size]; omega)]

/-- Claim C7, witness: the amended statement applied to the 4-byte
capture `0xFFFFFFFF` (a zero-extended 32-bit `-1`). -/
theorem sign_ext_reinterpretation_amended_witness :
    sign_ext_32 (2 ^ 32 - 1) < 0 ∧ err_to_str (to_int64 (2 ^ 32 - 1)) = none := by
  have h := sign_ext_reinterpretation_amended (2 ^ 32 - 1) (by norm_num)
  exact ⟨h.1, h.2.2 (by norm_num)⟩

/-- Helper: in verbose mode the repair pass emits exactly one frame per
input frame, namely `mark_one`. -/
theorem kstack_emit_true (a : kstack_item) (rest : List kstack_item) :
    kstack_emit true a rest = [mark_one a rest] := by
  rw [kstack_emit, mark_one]
  by_cases h1 : a.ksym = none
  · simp [h1]
  · by_cases h2 : kstack_bridge a rest
    · simp [h1, h2]
    · by_cases h3 : kstack_noise a
      · simp [h1, h2, h3]
      · simp [h1, h2, h3]

/-- Helper: `mark_one` does not change the resolved symbol. -/
theorem mark_one_ksym (a : kstack_item) (rest : List kstack_item) :
    (mark_one a rest).ksym = a.ksym := by
  by_cases h1 : a.ksym = none <;>
    by_cases h2 : (kstack_bridge a rest || kstack_noise a) = true <;>
      simp [mark_one, h1, h2]

/-- Helper: the trampoline test only reads the resolved symbol. -/
theorem is_bpf_tramp_mark_one (a : kstack_item) (rest : List kstack_item) :
    is_bpf_tramp (mark_one a rest) = is_bpf_tramp a := by
  rw [is_bpf_tramp, is_bpf_tramp, mark_one_ksym]

/-- Helper: the flag bit plays no role in the bridge condition. -/
theorem kstack_bridge_set_filtered (a : kstack_item) (b : Bool)
    (rest : List kstack_item) :
    kstack_bridge { a with filtered := b } rest = kstack_bridge a rest := by
  cases rest with
  | nil => rfl
  | cons x l =>
    cases l with
    | nil => rfl
    | cons y m => rfl

/-- Helper: the flag bit plays no role in the noise condition. -/
theorem kstack_noise_set_filtered (a : kstack_item) (b : Bool) :
    kstack_noise { a with filtered := b } = kstack_noise a := rfl

/-- Helper: the verbose repair of the tail does not change what the
bridge condition sees. -/
theorem kstack_bridge_repair_true (a : kstack_item) (xs : List kstack_item) :
    kstack_bridge a (kstack_repair true xs) = kstack_bridge a xs := by
  match xs with
  | [] => rfl
  | [b] =>
    rw [kstack_repair, kstack_emit_true, kstack_repair]
    rfl
  | b :: c :: t =>
    rw [kstack_repair, kstack_emit_true, kstack_repair, kstack_emit_true]
    show kstack_bridge a (mark_one b (c :: t) :: mark_one c t :: kstack_repair true t)
       = kstack_bridge a (b :: c :: t)
    rw [kstack_bridge, kstack_bridge]
    rw [is_bpf_tramp_mark_one, mark_one_ksym]

/-- Helper: verbose repair is `mark_one` at the head plus repair of the
tail. -/
theorem kstack_repair_true_cons (a : kstack_item) (rest : List kstack_item) :
    kstack_repair true (a :: rest) = mark_one a rest :: kstack_repair true rest := by
  rw [kstack_repair, kstack_emit_true]
  rfl

/-- Helper: marking is idempotent once the tail has been repaired. -/
theorem mark_one_idem (a : kstack_item) (rest : List kstack_item) :
    mark_one (mark_one a rest) (kstack_repair true rest) = mark_one a rest := by
  by_cases h1 : a.ksym = none
  · have e1 : mark_one a rest = a := by rw [mark_one, if_pos h1]
    rw [e1, mark_one, if_pos h1]
  · by_cases h2 : (kstack_bridge a rest || kstack_noise a) = true
    · have e1 : mark_one a rest = { a with filtered := true } := by
        rw [mark_one, if_neg h1, if_pos h2]
      rw [e1, mark_one, kstack_bridge_repair_true, kstack_bridge_set_filtered,
        kstack_noise_set_filtered, if_neg h1, if_pos h2]
    · have e1 : mark_one a rest = a := by
        rw [mark_one, if_neg h1, if_neg h2]
      rw [e1, mark_one, kstack_bridge_repair_true, if_neg h1, if_neg h2]

/-- Helper: an unresolved frame never matches the noise rule (the C code
never even evaluates it there, being guarded by the `!item->ksym` check). -/
theorem kstack_noise_of_none (a : kstack_item) (h : a.ksym = none) :
    kstack_noise a = false := by
  rw [kstack_noise, is_bpf_tramp, is_bpf_prog, h]
  rfl

/-- Helper: every frame surviving a non-verbose repair pass fails the
noise rule. -/
theorem kstack_repair_false_noise_free :
    ∀ xs, ∀ y ∈ kstack_repair false xs, kstack_noise y = false := by
  intro xs
  induction xs with
  | nil => intro y h; cases h
  | cons a rest ih =>
    intro y h
    rw [kstack_repair, List.mem_append] at h
    rcases h with h | h
    · rw [kstack_emit] at h
      by_cases h1 : a.ksym = none
      · rw [if_pos h1] at h
        obtain rfl := List.mem_singleton.mp h
        exact kstack_noise_of_none _ h1
      · rw [if_neg h1] at h
        by_cases h2 : kstack_bridge a rest = true
        · rw [if_pos h2] at h
          simp at h
        · rw [if_neg h2] at h
          by_cases h3 : kstack_noise a = true
          · rw [if_pos h3] at h
            simp at h
          · rw [if_neg h3] at h
            obtain rfl := List.mem_singleton.mp h
            simp only [Bool.not_eq_true] at h3
            exact h3
    · exact ih y h

/-- Helper: a noise-free sequence is a fixed point of the non-verbose
repair pass (the bridge rule needs a trampoline at the next position,
and trampolines are noise). -/
theorem kstack_repair_false_fixed :
    ∀ xs, (∀ y ∈ xs, kstack_noise y = false) → kstack_repair false xs = xs := by
  intro xs
  induction xs with
  | nil => intro _; rfl
  | cons a rest ih =>
    intro hall
    have hbr : kstack_bridge a rest = false := by
      cases rest with
      | nil => rfl
      | cons b l =>
        cases l with
        | nil => rfl
        | cons c m =>
          have hnb : kstack_noise b = false := hall b (by simp)
          have htb : is_bpf_tramp b = false := by
            cases htb' : is_bpf_tramp b with
            | false => rfl
            | true =>
              rw [kstack_noise, htb'] at hnb
              simp at hnb
          simp [kstack_bridge, htb]
    have hna : kstack_noise a = false := hall a (by simp)
    have htail : kstack_repair false rest = rest :=
      ih fun y hy => hall y (by simp [hy])
    by_cases h1 : a.ksym = none
    · rw [kstack_repair, kstack_emit, if_pos h1, htail]
      rfl
    · rw [kstack_repair, kstack_emit, if_neg h1, hbr, hna]
      simp [htail]

/-- Claim C8: the repair pass of `filter_kstack` is idempotent in both
modes — non-verbose because its output contains no noise frames and thus
matches no rule again; verbose because rule matches only set the
`filtered` flag, which the rule conditions never read. -/
theorem kstack_repair_idempotent (v : Bool) (xs : List kstack_item) :
    kstack_repair v (kstack_repair v xs) = kstack_repair v xs := by
  cases v with
  | false =>
    exact kstack_repair_false_fixed _ (kstack_repair_false_noise_free xs)
  | true =>
    induction xs with
    | nil => rfl
    | cons a rest ih =>
      rw [kstack_repair_true_cons, kstack_repair_true_cons, mark_one_idem, ih]

/-- Claim C9, counterexample: on `"kernel/arch/a.c"` the code returns
offset 7 (the first occurrence of `"arch/"`, the first *table* entry that
occurs at all), while the claim's "first occurrence of any of the
directory names" is offset 0 (`"kernel/"` occurs at the start). -/
theorem detect_linux_src_loc_counterexample :
    detect_linux_src_loc "kernel/arch/a.c" = 7 ∧
    detect_linux_src_loc_spec "kernel/arch/a.c" = 0 ∧
    detect_linux_src_loc "kernel/arch/a.c" ≠
      detect_linux_src_loc_spec "kernel/arch/a.c" := by
  refine ⟨by decide, by decide, by decide⟩

/-- Claim C9 (amended): `detect_linux_src_loc` returns 0 when no table
directory occurs in the path, and otherwise the position of the first
occurrence of the *earliest table entry* (in the fixed table order) that
occurs anywhere in the path — table priority, not earliest position in
the path. -/
theorem detect_linux_src_loc_amended (path : String) :
    ((∀ d ∈ linux_dirs, strstr_pos path.data d.data = none) →
      detect_linux_src_loc path = 0) ∧
    (∀ l₁ d l₂ k, linux_dirs = l₁ ++ d :: l₂ →
      (∀ d' ∈ l₁, strstr_pos path.data d'.data = none) →
      strstr_pos path.data d.data = some k →
      detect_linux_src_loc path = k) := by
  constructor
  · intro hall
    rw [detect_linux_src_loc,
      List.findSome?_eq_none_iff.mpr hall]
  · intro l₁ d l₂ k heq hnone hsome
    rw [detect_linux_src_loc, heq, List.findSome?_append,
      List.findSome?_eq_none_iff.mpr hnone, List.findSome?_cons, hsome]
    rfl

/-- Claim C9, witness: `"mm/"` is the eighth table entry; on the path
`"/x/mm/y.c"` none of the seven earlier entries occurs and `"mm/"` first
occurs at offset 3, so the amended theorem gives offset 3. -/
theorem detect_linux_src_loc_amended_witness :
    detect_linux_src_loc "/x/mm/y.c" = 3 := by
  exact (detect_linux_src_loc_amended "/x/mm/y.c").2
    ["arch/", "kernel/", "include/", "block/", "fs/", "net/", "drivers/"]
    "mm/"
    ["ipc/", "security/", "lib/", "crypto/", "certs/", "init/", "lib/",
     "scripts/", "sound/", "tools/", "usr/", "virt/"]
    3 (by decide) (by decide) (by decide)

/-- Claim C10: for every signed 64-bit input (LONG_MIN included, where the
C negation wraps and the signed-vs-`size_t` comparison sees `2^63`),
`err_to_str` returns exactly the table slot at index `|err|` when
`|err| < ARRAY_SIZE(err_names)` (a `none` slot at the unpopulated holes)
and `none` otherwise — it never indexes outside the table; and whenever
the decoder returns `none`, the presenter prints the literal signed
number in brackets. -/
theorem err_to_str_total (err : Int) (h1 : -(2 ^ 63) ≤ err) (h2 : err < 2 ^ 63) :
    err_to_str err =
      (if err.natAbs < err_names_size then err_names err.natAbs else none) ∧
    (∀ f : fstack_item, f.res = err → f.finished = true → err ≠ 0 →
      err_to_str err = none → render_res f = "[" ++ toString err ++ "]") := by
  constructor
  · by_cases hneg : err < 0
    · by_cases hmin : err = -(2 ^ 63)
      · subst hmin
        decide
      · have hw : wrap_i64 (-err) = -err := by
          rw [wrap_i64, Int.emod_eq_of_lt (by omega) (by omega)]
          ring
        have hu : to_u64 (-err) = err.natAbs := by
          simp only [to_u64]
          rw [Int.emod_eq_of_lt (by omega) (by omega)]
          omega
        simp only [err_to_str]
        rw [if_pos hneg, hw, hu]
    · have hu : to_u64 err = err.natAbs := by
        simp only [to_u64]
        rw [Int.emod_eq_of_lt (by omega) (by omega)]
        omega
      simp only [err_to_str]
      rw [if_neg hneg, hu]
  · intro f hres hfin hne hnone
    rw [render_res, hres, hfin, hnone]
    simp only [Bool.not_true, Bool.false_eq_true, if_false]
    rw [if_neg hne]

/-- Claim C10, witness: the totality theorem applied at `LONG_MIN`
(outside the table, decodes to `none`), at the unpopulated hole `41`
(a NULL slot), and at `-22` (decodes to `EINVAL`). -/
theorem err_to_str_total_witness :
    err_to_str (-(2 ^ 63)) = none ∧
    err_to_str 41 = none ∧
    err_to_str (-22) = some "EINVAL" := by
  have ha := (err_to_str_total (-(2 ^ 63)) (by norm_num) (by norm_num)).1
  have hb := (err_to_str_total 41 (by norm_num) (by norm_num)).1
  have hc := (err_to_str_total (-22) (by norm_num) (by norm_num)).1
  refine ⟨?_, ?_, ?_⟩
  · rw [ha]; decide
  · rw [hb]; decide
  · rw [hc]; decide
